import Mathlib

/-!
Shallow embedding of the subscription lifecycle, pinned-post guard and
payment/webhook reconciliation engine of the `app-news` Django application.

Conventions of the embedding:
* Django `DateTimeField` values (`timezone.now()`) are modelled as `Int`
  timestamps counted in seconds; `datetime.timedelta(days=d)` becomes
  `timedelta d = d * 86400`.
* A Django model instance becomes a Lean structure; `obj.save()` is modelled
  by returning the updated structure (single-row state passing), and a table
  becomes a `List` of rows inside an explicit state structure.
* A Python method that can raise becomes a function returning `Except` or a
  result variant; `try/except` blocks are embedded by case analysis with the
  caught control flow written out explicitly.
* Status strings are kept verbatim ("active", "pending", ...).
-/

namespace AppNews

/-- `datetime.timedelta(days=d)` in seconds. -/
def timedelta (days : Nat) : Int := (days : Int) * 86400

/-- Embeds `SubscriptionPlan` (apps/subscribe/models.py).
`price` is modelled in cents. -/
structure SubscriptionPlan where
  name : String
  price : Int
  duration_days : Nat
  is_active : Bool
deriving DecidableEq, Repr

/-- Embeds `Subscription` (apps/subscribe/models.py): one row per user
(`user` is a OneToOneField), referencing one plan. -/
structure Subscription where
  id : Nat
  userId : Nat
  plan : SubscriptionPlan
  status : String
  start_date : Int
  end_date : Int
  auto_renew : Bool
deriving DecidableEq, Repr

/-- Embeds the property `Subscription.is_active`
(apps/subscribe/models.py lines 71-75):
`self.status == "active" and self.start_date <= now <= self.end_date`.
`now` (`timezone.now()`) is passed explicitly. -/
def Subscription.is_active (s : Subscription) (now : Int) : Bool :=
  s.status == "active" && decide (s.start_date ≤ now) && decide (now ≤ s.end_date)

/-- Embeds `Subscription.extend_subscription(days=30)`
(apps/subscribe/models.py lines 85-93). -/
def Subscription.extend_subscription (s : Subscription) (now : Int) (days : Nat) : Subscription :=
  if s.is_active now then
    { s with end_date := s.end_date + timedelta days }
  else
    { s with start_date := now, end_date := now + timedelta days, status := "active" }

/-- Embeds `Subscription.cancel_subscription`
(apps/subscribe/models.py lines 95-99). -/
def Subscription.cancel_subscription (s : Subscription) : Subscription :=
  { s with status := "cancelled", auto_renew := false }

/-- Embeds `Subscription.expire_subscription`
(apps/subscribe/models.py lines 101-105). -/
def Subscription.expire_subscription (s : Subscription) : Subscription :=
  { s with status := "expired", auto_renew := false }

/-- Embeds `Subscription.activate_subscription`
(apps/subscribe/models.py lines 107-112): sets status to "active",
`start_date = now`, `end_date = start_date + timedelta(days=plan.duration_days)`. -/
def Subscription.activate_subscription (s : Subscription) (now : Int) : Subscription :=
  { s with status := "active", start_date := now,
           end_date := now + timedelta s.plan.duration_days }

end AppNews

namespace AppNews

/-- Sets `m[key] = value` on a JSON-object field modelled as an association
list (first binding wins on reads). -/
def setKey (m : List (String × String)) (key value : String) : List (String × String) :=
  (key, value) :: m.filter (fun kv => kv.1 ≠ key)

/-- Embeds `Payment` (apps/payment/models.py). `subscription` is a nullable
foreign key; the linked `Subscription` row itself is passed alongside the
payment in the service functions below. `metadata` is the JSON field;
`proceeded_at` is the (sic) processed-at timestamp field. -/
structure Payment where
  id : Nat
  userId : Nat
  subscriptionId : Option Nat
  amount : Int
  currency : String
  status : String
  payment_method : String
  stripe_payment_intent_id : Option String
  description : String
  metadata : List (String × String)
  proceeded_at : Option Int
deriving DecidableEq, Repr

/-- Embeds `Payment.mark_as_succeeded` (apps/payment/models.py lines 83-88):
sets status to "succeeded" and `proceeded_at = timezone.now()`. -/
def Payment.mark_as_succeeded (p : Payment) (now : Int) : Payment :=
  { p with status := "succeeded", proceeded_at := some now }

/-- Embeds `Payment.mark_as_failed(reason=None)`
(apps/payment/models.py lines 90-97): sets status to "failed",
`proceeded_at = now`, and records `metadata["failure_reason"] = reason` when
`reason` is truthy (Python `if reason:` skips both `None` and `""`). -/
def Payment.mark_as_failed (p : Payment) (now : Int) (reason : Option String) : Payment :=
  let p := { p with status := "failed", proceeded_at := some now }
  match reason with
  | some r => if r = "" then p else { p with metadata := setKey p.metadata "failure_reason" r }
  | none => p

/-- Embeds `PaymentService.create_subscription_payment(user, plan)`
(apps/payment/services.py lines 158-179): creates a Subscription with
status "pending", `start_date = now`, `end_date = now + timedelta(plan.duration_days)`,
then a Payment with `amount = plan.price`, currency "USD", the default
status "pending" and payment method "stripe"; returns both.
`subId` stands for the database-assigned primary key of the new row. -/
def PaymentService.create_subscription_payment (now : Int) (userId : Nat)
    (plan : SubscriptionPlan) (subId payId : Nat) : Payment × Subscription :=
  let subscription : Subscription :=
    { id := subId, userId := userId, plan := plan, status := "pending",
      start_date := now, end_date := now + timedelta plan.duration_days,
      auto_renew := true }
  let payment : Payment :=
    { id := payId, userId := userId, subscriptionId := some subId,
      amount := plan.price, currency := "USD", status := "pending",
      payment_method := "stripe", stripe_payment_intent_id := none,
      description := "Subscription to " ++ plan.name, metadata := [],
      proceeded_at := none }
  (payment, subscription)

/-- Embeds `PaymentService.process_successful_payment(payment)`
(apps/payment/services.py lines 181-196): unconditionally calls
`payment.mark_as_succeeded()` and then, when a subscription is linked,
`payment.subscription.activate_subscription()`; returns True. Neither call
can raise, so the `except` branch returning False is unreachable. -/
def PaymentService.process_successful_payment (now : Int) (p : Payment)
    (sub : Option Subscription) : Payment × Option Subscription × Bool :=
  let p := p.mark_as_succeeded now
  match sub with
  | some s => (p, some (s.activate_subscription now), true)
  | none => (p, none, true)

/-- Embeds `PaymentService.process_failed_payment(payment, reason="")`
(apps/payment/services.py lines 198-213). The body first calls
`payment.mark_as_failed(reason)` (which saves the payment row), then — when a
subscription is linked — calls `payment.subscription.cancel()`. The
`Subscription` model defines no attribute named `cancel` (only
`cancel_subscription`), so that call raises `AttributeError`; the surrounding
`except Exception` catches it and the function returns False, leaving the
already-saved payment row failed and the subscription row unchanged. With no
linked subscription the body completes and returns True. -/
def PaymentService.process_failed_payment (now : Int) (p : Payment)
    (sub : Option Subscription) (reason : String) : Payment × Option Subscription × Bool :=
  let p := p.mark_as_failed now (some reason)
  match sub with
  | some s => (p, some s, false)
  | none => (p, none, true)

/-- Embeds `SubscriptionCreateSerializer.create(validated_data)`
(apps/subscribe/serializers.py lines 90-104): creates the Subscription with
`status = Subscription.STATUS_ACTIVE` (the string "active"),
`start_date = timezone.now()`, `end_date = start_date + timedelta(plan.duration_days)`;
`auto_renew` keeps its model default True. -/
def SubscriptionCreateSerializer.create (now : Int) (userId : Nat)
    (plan : SubscriptionPlan) (subId : Nat) : Subscription :=
  { id := subId, userId := userId, plan := plan, status := "active",
    start_date := now, end_date := now + timedelta plan.duration_days,
    auto_renew := true }

/-- A 30-day plan shared by the concrete examples below. -/
def planBasic : SubscriptionPlan :=
  { name := "basic", price := 999, duration_days := 30, is_active := true }

/-- A logically expired subscription: stored status still reads "active" but
its `end_date` (10) is in the past relative to the times used below. -/
def subStaleC1 : Subscription :=
  { id := 1, userId := 1, plan := planBasic,
    status := "active", start_date := 0, end_date := 10, auto_renew := true }

/-- A currently active subscription with 10 days of paid time remaining at
`now = 0`: `end_date = timedelta 10`. -/
def subRenewC2 : Subscription :=
  { id := 2, userId := 2, plan := planBasic,
    status := "active", start_date := -(timedelta 20), end_date := timedelta 10,
    auto_renew := true }

/-- The renewal payment paired with `subRenewC2`, confirmed by the gateway. -/
def payRenewC2 : Payment :=
  { id := 2, userId := 2, subscriptionId := some 2, amount := 999,
    currency := "USD", status := "processing", payment_method := "stripe",
    stripe_payment_intent_id := none, description := "Subscription to basic",
    metadata := [], proceeded_at := none }

/-- A payment that already reached the terminal status "succeeded", processed
at time 100. -/
def paySucceededC6 : Payment :=
  { id := 6, userId := 2, subscriptionId := some 2, amount := 999,
    currency := "USD", status := "succeeded", payment_method := "stripe",
    stripe_payment_intent_id := none, description := "Subscription to basic",
    metadata := [], proceeded_at := some 100 }

/-- The parsed Stripe payload consumed by `WebhookService`: the provider event
id and type, `data.object.id`, the `payment_id` embedded in
`data.object.metadata`, and `data.object.last_payment_error.message`. -/
structure StripeEventData where
  id : String
  event_type : String
  object_id : String
  payment_id : Option Nat
  last_payment_error_message : Option String
deriving DecidableEq, Repr

/-- Embeds `WebhookEvent` (apps/payment/models.py): the append-only event log
row with unique `event_id` and the raw payload retained in `data`. -/
structure WebhookEvent where
  provider : String
  event_id : String
  event_type : String
  status : String
  data : StripeEventData
  processed_at : Option Int
  error_message : Option String
  created_at : Int
deriving DecidableEq, Repr

/-- Embeds `WebhookEvent.mark_as_processed`
(apps/payment/models.py lines 209-214). -/
def WebhookEvent.mark_as_processed (e : WebhookEvent) (now : Int) : WebhookEvent :=
  { e with status := "processed", processed_at := some now }

/-- Embeds `WebhookEvent.mark_as_failed(error_message)`
(apps/payment/models.py lines 216-222). -/
def WebhookEvent.mark_as_failed (e : WebhookEvent) (now : Int) (msg : String) : WebhookEvent :=
  { e with status := "failed", error_message := some msg, processed_at := some now }

/-- A `payments` table row together with the subscription row its nullable
`subscription` foreign key points at. -/
structure PaymentRow where
  payment : Payment
  sub : Option Subscription
deriving DecidableEq, Repr

/-- The slice of database state the reconciliation engine touches: the
`webhook_events` log and the `payments` table (each payment carrying its
linked subscription row). -/
structure PaymentState where
  events : List WebhookEvent
  payments : List PaymentRow
deriving DecidableEq, Repr

/-- `Payment.objects.get(id=payment_id)` on the state. -/
def PaymentState.findPayment (st : PaymentState) (pid : Nat) : Option PaymentRow :=
  st.payments.find? (fun r => r.payment.id == pid)

/-- Writes back a saved payment row (rows are keyed by the payment id). -/
def PaymentState.updatePayment (st : PaymentState) (row : PaymentRow) : PaymentState :=
  let payments := st.payments.map (fun r => if r.payment.id == row.payment.id then row else r)
  { st with payments := payments }

/-- Writes back a saved webhook-event row (rows are keyed by the unique
`event_id`). -/
def PaymentState.updateEvent (st : PaymentState) (e : WebhookEvent) : PaymentState :=
  let events := st.events.map (fun x => if x.event_id == e.event_id then e else x)
  { st with events := events }

/-- Embeds `WebhookService._handle_checkout_completed(event_data)`
(apps/payment/services.py lines 283-303): reads `payment_id` from the session
metadata (missing id → False), looks the Payment up (absent → False,
`Payment.DoesNotExist`), then runs `PaymentService.process_successful_payment`. -/
def WebhookService.handle_checkout_completed (now : Int) (st : PaymentState)
    (event_data : StripeEventData) : PaymentState × Bool :=
  match event_data.payment_id with
  | none => (st, false)
  | some pid =>
    match st.findPayment pid with
    | none => (st, false)
    | some row =>
      let (p, s, ok) := PaymentService.process_successful_payment now row.payment row.sub
      (st.updatePayment { payment := p, sub := s }, ok)

/-- Embeds `WebhookService._handle_payment_succeeded(event_data)`
(apps/payment/services.py lines 305-328): like checkout-completed but first
stores the payment intent id (`data.object.id`) on the payment. -/
def WebhookService.handle_payment_succeeded (now : Int) (st : PaymentState)
    (event_data : StripeEventData) : PaymentState × Bool :=
  match event_data.payment_id with
  | none => (st, false)
  | some pid =>
    match st.findPayment pid with
    | none => (st, false)
    | some row =>
      let pay := { row.payment with stripe_payment_intent_id := some event_data.object_id }
      let (p, s, ok) := PaymentService.process_successful_payment now pay row.sub
      (st.updatePayment { payment := p, sub := s }, ok)

/-- Embeds `WebhookService._handle_payment_failed(event_data)`
(apps/payment/services.py lines 330-354): reads the failure reason from
`last_payment_error` (defaulting to "Payment failed") and runs
`PaymentService.process_failed_payment`. -/
def WebhookService.handle_payment_failed (now : Int) (st : PaymentState)
    (event_data : StripeEventData) : PaymentState × Bool :=
  match event_data.payment_id with
  | none => (st, false)
  | some pid =>
    match st.findPayment pid with
    | none => (st, false)
    | some row =>
      let reason := event_data.last_payment_error_message.getD "Payment failed"
      let (p, s, ok) := PaymentService.process_failed_payment now row.payment row.sub reason
      (st.updatePayment { payment := p, sub := s }, ok)

/-- Embeds `WebhookService._handle_dispute_created(event_data)`
(apps/payment/services.py lines 356-368): logged only, always True. -/
def WebhookService.handle_dispute_created (st : PaymentState)
    (_event_data : StripeEventData) : PaymentState × Bool :=
  (st, true)

/-- The tail of `process_stripe_webhook`: `webhook_event.mark_as_processed()`
on success, `webhook_event.mark_as_failed("Processing failed")` otherwise. -/
def WebhookService.finishEvent (now : Int) (r : PaymentState × Bool)
    (eid : String) : PaymentState × Bool :=
  let (st, success) := r
  if success then
    let events := st.events.map (fun e => if e.event_id == eid then e.mark_as_processed now else e)
    ({ st with events := events }, true)
  else
    let events := st.events.map
      (fun e => if e.event_id == eid then e.mark_as_failed now "Processing failed" else e)
    ({ st with events := events }, false)

/-- Embeds `WebhookService.process_stripe_webhook(event_data)`
(apps/payment/services.py lines 236-277). The dedup check is
`WebhookEvent.objects.filter(event_id=event_id).exists()`: it short-circuits
with True for ANY recorded event id, with no condition on the recorded
status. Otherwise a new pending `WebhookEvent` row is created, the event is
dispatched by type, and the row is marked processed / failed / ignored. -/
def WebhookService.process_stripe_webhook (now : Int) (st : PaymentState)
    (event_data : StripeEventData) : PaymentState × Bool :=
  if st.events.any (fun e => e.event_id == event_data.id) then
    (st, true)
  else
    let webhook_event : WebhookEvent :=
      { provider := "stripe", event_id := event_data.id,
        event_type := event_data.event_type, status := "pending",
        data := event_data, processed_at := none, error_message := none,
        created_at := now }
    let st := { st with events := st.events ++ [webhook_event] }
    if event_data.event_type == "checkout.session.completed" then
      WebhookService.finishEvent now
        (WebhookService.handle_checkout_completed now st event_data) event_data.id
    else if event_data.event_type == "payment_intent.succeeded" then
      WebhookService.finishEvent now
        (WebhookService.handle_payment_succeeded now st event_data) event_data.id
    else if event_data.event_type == "payment_intent.payment_failed" then
      WebhookService.finishEvent now
        (WebhookService.handle_payment_failed now st event_data) event_data.id
    else if event_data.event_type == "charge.dispute.created" then
      WebhookService.finishEvent now
        (WebhookService.handle_dispute_created st event_data) event_data.id
    else
      (st.updateEvent { webhook_event with status := "ignored" }, true)

/-- Embeds the celery task `retry_failed_webhook_events`
(apps/payment/tasks.py lines 37-58): selects up to 50 events with
`status='failed', created_at__gte=now - 24h` and re-runs
`WebhookService.process_stripe_webhook(event.data)` on each; when that
returns True the event row itself is marked processed and counted. -/
def retry_failed_webhook_events (now : Int) (st : PaymentState) : PaymentState × Nat :=
  let retry_cutoff := now - 24 * 3600
  let failed_events :=
    (st.events.filter
      (fun e => e.status == "failed" && decide (retry_cutoff ≤ e.created_at))).take 50
  failed_events.foldl
    (fun acc event =>
      let (st1, success) := WebhookService.process_stripe_webhook now acc.1 event.data
      if success then
        let events := st1.events.map
          (fun e => if e.event_id == event.event_id then e.mark_as_processed now else e)
        ({ st1 with events := events }, acc.2 + 1)
      else (st1, acc.2))
    (st, 0)

/-- A `pinned_posts` table row (user and post are both OneToOne keys). -/
structure PinnedPostRow where
  userId : Nat
  postId : Nat
  pinned_at : Int
deriving DecidableEq, Repr

/-- The slice of state the expiry sweep touches: the `subscriptions` and
`pinned_posts` tables. -/
structure SweepState where
  subscriptions : List Subscription
  pinned_posts : List PinnedPostRow
deriving DecidableEq, Repr

/-- Embeds `subscription.delete()` together with the `pre_delete` receiver
`subscription_pre_delete` (apps/subscribe/signals.py lines 6-12): the
receiver deletes the owning user's pinned post if present, then the
subscription row itself is removed from the table. -/
def SweepState.delete_subscription (st : SweepState) (s : Subscription) : SweepState :=
  { subscriptions := st.subscriptions.filter (fun t => t.id ≠ s.id),
    pinned_posts := st.pinned_posts.filter (fun p => p.userId ≠ s.userId) }

/-- Embeds the celery task `check_expired_subscriptions`
(apps/subscribe/tasks.py lines 5-32): selects subscriptions with
`status='active', end_date__lt=now` and calls `subscription.delete()` on
each. (The loop body afterwards reads `subscription.user.pinned_post`, but
the pre-delete receiver has already removed that pin, so the lookup raises
`PinnedPost.DoesNotExist` and the `except` passes; the pin removal is the
cascade inside `delete_subscription`.) The returned counters are dropped. -/
def check_expired_subscriptions (now : Int) (st : SweepState) : SweepState :=
  let expired := st.subscriptions.filter
    (fun s => s.status == "active" && decide (s.end_date < now))
  expired.foldl SweepState.delete_subscription st

/-- Embeds a `Post` row of the content store (apps/posts/models.py): only the
fields the pin guard reads. -/
structure Post where
  id : Nat
  authorId : Nat
  status : String
deriving DecidableEq, Repr

/-- An unsaved `PinnedPost` model instance: the pinning user and the post
object it references. -/
structure PinnedPostObj where
  userId : Nat
  post : Post
deriving DecidableEq, Repr

/-- The condition `hasattr(user, 'subscription') and user.subscription.is_active`
shared by the pin guard, the view and the signal receiver; `subOf` is the
user's subscription row when one exists. -/
def has_active_subscription (subOf : Option Subscription) (now : Int) : Bool :=
  match subOf with
  | some s => s.is_active now
  | none => false

/-- Embeds the `PinnedPost.save` override (apps/subscribe/models.py lines
140-147): raises `ValueError` (no row is written) unless the user has an
active subscription, then unless the user is the post's author; only then is
the row persisted (`super().save()`). -/
def PinnedPostObj.save (pp : PinnedPostObj) (now : Int)
    (subOf : Option Subscription) : Except String PinnedPostObj :=
  if !(has_active_subscription subOf now) then
    Except.error "User must have an active subscription to pin a post."
  else if pp.userId ≠ pp.post.authorId then
    Except.error "User can only pin their own posts."
  else
    Except.ok pp

/-- Embeds the `post_save` receiver `pinned_post_post_save`
(apps/subscribe/signals.py lines 14-19): when a pin row was just created and
its user has no subscription or an inactive one, the row is deleted again. -/
def pinned_post_post_save (now : Int) (subOf : Option Subscription)
    (created : Bool) (pins : List PinnedPostRow) (row : PinnedPostRow) :
    List PinnedPostRow :=
  if created && !(has_active_subscription subOf now) then
    pins.filter (fun r => ¬(r.userId = row.userId ∧ r.postId = row.postId))
  else
    pins

/-- The slice of state the pin view touches: content-store posts (read-only),
the `subscriptions` table and the `pinned_posts` table. -/
structure PinState where
  posts : List Post
  subscriptions : List Subscription
  pins : List PinnedPostRow
deriving DecidableEq, Repr

/-- `request.user.subscription` (the `subscriptions` table is OneToOne on the
user). -/
def PinState.getSubscription (st : PinState) (userId : Nat) : Option Subscription :=
  st.subscriptions.find? (fun s => s.userId == userId)

/-- The distinguishable outcomes of the `pin_post` view. -/
inductive PinPostResponse where
  | created (row : PinnedPostRow)
  | notFound
  | forbiddenNotOwner
  | forbiddenSubscriptionRequired
  | badRequest (msg : String)
deriving DecidableEq, Repr

/-- Embeds the view `pin_post(request)` (apps/subscribe/views.py lines
103-141) — the body inside `transaction.atomic()` acting on the validated
`post_id` (request marshalling/serializer plumbing is the excluded web
layer). In order: `get_object_or_404(Post, id=post_id, status='published')`;
403 unless `post.author == request.user`; 403 unless the user has an active
subscription; delete the user's existing pin if any;
`PinnedPost.objects.create(...)`, which runs the `PinnedPost.save` override
(a `ValueError` there is caught by the `except` and the transaction rolls
back, restoring the deleted pin) and then fires the `post_save` receiver. -/
def pin_post (now : Int) (st : PinState) (userId : Nat) (post_id : Nat) :
    PinState × PinPostResponse :=
  match st.posts.find? (fun p => p.id == post_id && p.status == "published") with
  | none => (st, PinPostResponse.notFound)
  | some post =>
    if post.authorId ≠ userId then
      (st, PinPostResponse.forbiddenNotOwner)
    else
      let subOf := st.getSubscription userId
      if !(has_active_subscription subOf now) then
        (st, PinPostResponse.forbiddenSubscriptionRequired)
      else
        let pins := st.pins.filter (fun r => r.userId ≠ userId)
        match PinnedPostObj.save { userId := userId, post := post } now subOf with
        | Except.error msg => (st, PinPostResponse.badRequest msg)
        | Except.ok _ =>
          let row : PinnedPostRow := { userId := userId, postId := post.id, pinned_at := now }
          let pins := pinned_post_post_save now subOf true (pins ++ [row]) row
          ({ st with pins := pins }, PinPostResponse.created row)

/-- A pending subscription awaiting payment, used for the failed-payment
webhook scenario (`sub_1` of the spec's scenario 4). -/
def subPendingC4 : Subscription :=
  { id := 4, userId := 4, plan := planBasic, status := "pending",
    start_date := 0, end_date := timedelta 30, auto_renew := true }

/-- The pending payment `pay_1` linked to `subPendingC4`. -/
def payPendingC4 : Payment :=
  { id := 4, userId := 4, subscriptionId := some 4, amount := 999,
    currency := "USD", status := "pending", payment_method := "stripe",
    stripe_payment_intent_id := none, description := "Subscription to basic",
    metadata := [], proceeded_at := none }

/-- The payload of event `evt_1`: a `payment_intent.payment_failed` event
referencing payment 4. -/
def evtDataC5 : StripeEventData :=
  { id := "evt_1", event_type := "payment_intent.payment_failed",
    object_id := "pi_1", payment_id := some 4,
    last_payment_error_message := some "Card declined" }

/-- A webhook-event row for `evt_1` left in status "failed" by an earlier
processing attempt 100 seconds ago (inside the 24-hour retry window). -/
def evtFailedC5 : WebhookEvent :=
  { provider := "stripe", event_id := "evt_1",
    event_type := "payment_intent.payment_failed", status := "failed",
    data := evtDataC5, processed_at := some (-50),
    error_message := some "Processing failed", created_at := -100 }

/-- Reconciliation-engine state holding the failed `evt_1` record and the
still-pending payment 4 it references. -/
def stC5 : PaymentState :=
  { events := [evtFailedC5],
    payments := [{ payment := payPendingC4, sub := some subPendingC4 }] }

/-- An expired-but-still-marked-active subscription for the sweep
counterexample. -/
def subExpiredC3 : Subscription :=
  { id := 3, userId := 3, plan := planBasic, status := "active",
    start_date := -1000, end_date := -1, auto_renew := true }

/-- Sweep state: the expired subscription of user 3 and that user's pin. -/
def stC3 : SweepState :=
  { subscriptions := [subExpiredC3],
    pinned_posts := [{ userId := 3, postId := 30, pinned_at := -500 }] }

/-- A published post authored by user 5. -/
def postB : Post := { id := 10, authorId := 5, status := "published" }

/-- User 5's currently active subscription. -/
def subUserFive : Subscription :=
  { id := 5, userId := 5, plan := planBasic, status := "active",
    start_date := -10, end_date := 10, auto_renew := true }

/-- Pin-view state: user 5 already has post 9 pinned and now pins `postB`. -/
def stC8 : PinState :=
  { posts := [postB],
    subscriptions := [subUserFive],
    pins := [{ userId := 5, postId := 9, pinned_at := -100 }] }

/-- A pin instance whose user has no subscription record at all. -/
def ppNoSub : PinnedPostObj :=
  { userId := 6, post := { id := 11, authorId := 6, status := "published" } }

/-- A pin instance satisfying both guard checks for user 5. -/
def ppOk : PinnedPostObj := { userId := 5, post := postB }

end AppNews

namespace AppNews

/-- C1: `Subscription.is_active` holds exactly when the stored status is
"active" and `start_date ≤ now ≤ end_date`; in particular it is false
whenever `now > end_date`, regardless of the stored status field. -/
theorem is_active_iff_status_and_window (s : Subscription) (now : Int) :
    (s.is_active now = true ↔
      s.status = "active" ∧ s.start_date ≤ now ∧ now ≤ s.end_date) ∧
    (s.end_date < now → s.is_active now = false) := by
  constructor
  · simp [Subscription.is_active, and_assoc]
  · intro h
    simp [Subscription.is_active]
    intro _ _
    omega

/-- Witness for C1 at a concrete input: `now = 11 > end_date = 10` forces the
predicate false even though the stored status is "active". -/
theorem is_active_iff_status_and_window_witness : subStaleC1.is_active 11 = false :=
  (is_active_iff_status_and_window subStaleC1 11).2 (by decide)

/-- C2 counterexample: for the active subscription `subRenewC2` (10 days of
paid time left at `now = 0`, 30-day plan), confirming the renewal payment
yields `end_date = now + timedelta 30`, not the claimed
`old end_date + timedelta 30`. -/
theorem renewal_restarts_instead_of_extending :
    subRenewC2.is_active 0 = true ∧
    ((PaymentService.process_successful_payment 0 payRenewC2 (some subRenewC2)).2.1.map
        Subscription.end_date) ≠
      some (subRenewC2.end_date + timedelta subRenewC2.plan.duration_days) := by
  decide

/-- C2 amended: confirming a payment for a subscription — active or not —
always goes through `activate_subscription`, so the new `end_date` is
`now + timedelta plan.duration_days` and `start_date = now`; remaining paid
time is discarded, not preserved. -/
theorem process_successful_payment_restarts (now : Int) (p : Payment)
    (s : Subscription) (h : s.is_active now = true) :
    (PaymentService.process_successful_payment now p (some s)).2.1 =
      some { s with status := "active", start_date := now,
                    end_date := now + timedelta s.plan.duration_days } := by
  rfl

/-- Witness for C2 amended at `subRenewC2`, `now = 0`. -/
theorem process_successful_payment_restarts_witness :
    (PaymentService.process_successful_payment 0 payRenewC2 (some subRenewC2)).2.1 =
      some { subRenewC2 with status := "active", start_date := 0,
                             end_date := 0 + timedelta 30 } :=
  process_successful_payment_restarts 0 payRenewC2 subRenewC2 (by decide)

/-- C6 counterexample: invoking `process_successful_payment` on the
already-succeeded payment `paySucceededC6` is not a no-op — it rewrites
`proceeded_at` from 100 to the new `now = 500` and re-activates the linked
subscription, moving its `end_date` to `500 + timedelta 30`. -/
theorem confirm_payment_not_idempotent :
    paySucceededC6.status = "succeeded" ∧
    (PaymentService.process_successful_payment 500 paySucceededC6 (some subRenewC2)).1.proceeded_at
      = some 500 ∧
    paySucceededC6.proceeded_at = some 100 ∧
    ((PaymentService.process_successful_payment 500 paySucceededC6 (some subRenewC2)).2.1.map
        Subscription.end_date) = some (500 + timedelta 30) ∧
    subRenewC2.end_date ≠ 500 + timedelta 30 := by
  decide

/-- C6 amended: on an already-succeeded payment the confirmation path still
returns success and the status stays "succeeded", but it is not a no-op: the
payment's `proceeded_at` is overwritten with the new `now` and the linked
subscription is re-activated (`start_date := now`,
`end_date := now + timedelta plan.duration_days`). -/
theorem process_successful_payment_on_succeeded (now : Int) (p : Payment)
    (s : Subscription) (h : p.status = "succeeded") :
    (PaymentService.process_successful_payment now p (some s)) =
      ({ p with status := "succeeded", proceeded_at := some now },
       some (s.activate_subscription now), true) := by
  simp [PaymentService.process_successful_payment, Payment.mark_as_succeeded]

/-- Witness for C6 amended at `paySucceededC6`, `now = 500`. -/
theorem process_successful_payment_on_succeeded_witness :
    (PaymentService.process_successful_payment 500 paySucceededC6 (some subRenewC2)) =
      ({ paySucceededC6 with status := "succeeded", proceeded_at := some 500 },
       some (subRenewC2.activate_subscription 500), true) :=
  process_successful_payment_on_succeeded 500 paySucceededC6 subRenewC2 (by decide)

/-- C7 counterexample: `SubscriptionCreateSerializer.create` hands out the
subscription with status "active" immediately at creation time (with
`start_date = now`), not "pending". -/
theorem serializer_create_is_active_not_pending :
    (SubscriptionCreateSerializer.create 0 7 planBasic 7).status = "active" ∧
    (SubscriptionCreateSerializer.create 0 7 planBasic 7).status ≠ "pending" := by
  decide

/-- C7 amended: the two creation paths disagree. The payment-service purchase
path (`PaymentService.create_subscription_payment`) creates the subscription
with status "pending", while the serializer path
(`SubscriptionCreateSerializer.create`) creates it directly with status
"active" and a full `[now, now + duration]` window, bypassing payment
confirmation. -/
theorem subscription_creation_paths (now : Int) (userId : Nat)
    (plan : SubscriptionPlan) (subId payId : Nat) :
    (PaymentService.create_subscription_payment now userId plan subId payId).2.status
        = "pending" ∧
    (PaymentService.create_subscription_payment now userId plan subId payId).1.status
        = "pending" ∧
    (SubscriptionCreateSerializer.create now userId plan subId).status = "active" := by
  simp [PaymentService.create_subscription_payment, SubscriptionCreateSerializer.create]

/-- C4: evaluating `process_failed_payment` at the failing input. The payment
is saved as failed with the failure reason recorded in its metadata, but the
subscription comes back unchanged — still "pending", never "cancelled" — and
the handler reports failure, because `payment.subscription.cancel()` names a
method the `Subscription` model does not define. -/
theorem failed_payment_leaves_subscription_uncancelled :
    (PaymentService.process_failed_payment 0 payPendingC4 (some subPendingC4) "Card declined") =
      ({ payPendingC4 with status := "failed", proceeded_at := some 0,
                           metadata := [("failure_reason", "Card declined")] },
       some subPendingC4, false) ∧
    subPendingC4.status = "pending" ∧ subPendingC4.status ≠ "cancelled" := by
  decide

/-- C5: evaluating the webhook dedup and the retry sweep at the failing
input. Re-ingesting `evt_1` — whose record is in the non-terminal status
"failed" — returns success with the state untouched (no handler dispatch, the
referenced payment stays "pending"), and one run of the retry sweep therefore
reprocesses nothing: it leaves the payment table unchanged and merely flips
the failed event record to "processed". -/
theorem retry_sweep_never_reprocesses :
    evtFailedC5.status = "failed" ∧
    WebhookService.process_stripe_webhook 0 stC5 evtDataC5 = (stC5, true) ∧
    (retry_failed_webhook_events 0 stC5).1.payments = stC5.payments ∧
    ((retry_failed_webhook_events 0 stC5).1.events.map WebhookEvent.status) = ["processed"] ∧
    (stC5.payments.map (fun r => r.payment.status)) = ["pending"] := by
  decide

/-- Deleting subscriptions only ever removes rows, so once no subscription
with id `i` is present, none appears under further deletions. -/
theorem foldl_delete_keeps_sub_absent (l : List Subscription) (st : SweepState) (i : Nat)
    (h : ∀ t ∈ st.subscriptions, t.id ≠ i) :
    ∀ t ∈ (l.foldl SweepState.delete_subscription st).subscriptions, t.id ≠ i := by
  induction l generalizing st with
  | nil => exact h
  | cons s rest ih =>
    apply ih
    intro t ht
    exact h t (List.mem_of_mem_filter ht)

/-- After the fold has deleted a subscription appearing in the work list, no
row with its id survives. -/
theorem foldl_delete_removes_sub (l : List Subscription) (st : SweepState) (s : Subscription)
    (h : s ∈ l) :
    ∀ t ∈ (l.foldl SweepState.delete_subscription st).subscriptions, t.id ≠ s.id := by
  induction l generalizing st with
  | nil => cases h
  | cons a rest ih =>
    rw [List.foldl_cons]
    cases h with
    | head =>
      apply foldl_delete_keeps_sub_absent
      intro t ht
      have ht2 : t ∈ st.subscriptions.filter (fun t => t.id ≠ s.id) := ht
      simpa using List.of_mem_filter ht2
    | tail _ hmem => exact ih (SweepState.delete_subscription st a) hmem

/-- Pin deletion is likewise monotone: a user id absent from the pin table
stays absent under further subscription deletions. -/
theorem foldl_delete_keeps_pin_absent (l : List Subscription) (st : SweepState) (u : Nat)
    (h : ∀ p ∈ st.pinned_posts, p.userId ≠ u) :
    ∀ p ∈ (l.foldl SweepState.delete_subscription st).pinned_posts, p.userId ≠ u := by
  induction l generalizing st with
  | nil => exact h
  | cons s rest ih =>
    apply ih
    intro p hp
    exact h p (List.mem_of_mem_filter hp)

/-- After the fold has deleted a subscription appearing in the work list, no
pin of its owning user survives. -/
theorem foldl_delete_removes_pin (l : List Subscription) (st : SweepState) (s : Subscription)
    (h : s ∈ l) :
    ∀ p ∈ (l.foldl SweepState.delete_subscription st).pinned_posts, p.userId ≠ s.userId := by
  induction l generalizing st with
  | nil => cases h
  | cons a rest ih =>
    rw [List.foldl_cons]
    cases h with
    | head =>
      apply foldl_delete_keeps_pin_absent
      intro p hp
      have hp2 : p ∈ st.pinned_posts.filter (fun p => p.userId ≠ s.userId) := hp
      simpa using List.of_mem_filter hp2
    | tail _ hmem => exact ih (SweepState.delete_subscription st a) hmem

/-- C3 counterexample: sweeping `stC3` (one subscription with status "active"
and `end_date` in the past, plus that user's pin) deletes the subscription
row outright — afterwards the table is empty, so no record with status
"expired" and `auto_renew = false` is left behind. -/
theorem expiry_sweep_deletes_row_counterexample :
    subExpiredC3.status = "active" ∧ subExpiredC3.end_date < 0 ∧
    subExpiredC3 ∈ stC3.subscriptions ∧
    (check_expired_subscriptions 0 stC3).subscriptions = [] ∧
    (check_expired_subscriptions 0 stC3).pinned_posts = [] := by
  decide

/-- C3 amended: one run of the expiry sweep hard-deletes every subscription
row that has status "active" and `end_date` in the past (no row with that id
survives, in particular none with status "expired"), and the owning user's
pinned post is deleted in the same operation via the pre-delete cascade. -/
theorem expiry_sweep_removes_row_and_pin (now : Int) (st : SweepState) (s : Subscription)
    (hmem : s ∈ st.subscriptions) (hstatus : s.status = "active")
    (hend : s.end_date < now) :
    (∀ t ∈ (check_expired_subscriptions now st).subscriptions, t.id ≠ s.id) ∧
    (∀ p ∈ (check_expired_subscriptions now st).pinned_posts, p.userId ≠ s.userId) := by
  have hsel : s ∈ st.subscriptions.filter
      (fun s => s.status == "active" && decide (s.end_date < now)) := by
    rw [List.mem_filter]
    exact ⟨hmem, by simp [hstatus, hend]⟩
  unfold check_expired_subscriptions
  exact ⟨foldl_delete_removes_sub _ st s hsel, foldl_delete_removes_pin _ st s hsel⟩

/-- Witness for C3 amended at the concrete state `stC3`, `now = 0`. -/
theorem expiry_sweep_removes_row_and_pin_witness :
    (∀ t ∈ (check_expired_subscriptions 0 stC3).subscriptions, t.id ≠ subExpiredC3.id) ∧
    (∀ p ∈ (check_expired_subscriptions 0 stC3).pinned_posts, p.userId ≠ subExpiredC3.userId) :=
  expiry_sweep_removes_row_and_pin 0 stC3 subExpiredC3 (by decide) (by decide) (by decide)

/-- A pin table from which every row of user `u` was deleted holds no row of
user `u`. -/
theorem filter_user_of_filter_ne (l : List PinnedPostRow) (u : Nat) :
    (l.filter (fun r => r.userId ≠ u)).filter (fun r => r.userId == u) = [] := by
  induction l with
  | nil => rfl
  | cons a t ih =>
    by_cases h : a.userId = u <;> simp [List.filter_cons, h, ih]

/-- C8: pin is atomic-replace. For a user whose current pin is `a` and who
passes the authorization checks for the published post `b` they authored,
`pin_post` succeeds and afterwards the user owns exactly one pin — on `b`.
The whole view body runs inside `transaction.atomic()`, so the intermediate
delete is never observable on its own. -/
theorem pin_post_atomic_replace (now : Int) (st : PinState) (u : Nat) (b : Post)
    (s : Subscription) (a : PinnedPostRow)
    (ha : a ∈ st.pins) (hau : a.userId = u)
    (hfind : st.posts.find? (fun p => p.id == b.id && p.status == "published") = some b)
    (hauthor : b.authorId = u)
    (hsub : st.getSubscription u = some s)
    (hactive : s.is_active now = true) :
    ((pin_post now st u b.id).1.pins.filter (fun r => r.userId == u))
      = [{ userId := u, postId := b.id, pinned_at := now }] ∧
    (pin_post now st u b.id).2
      = PinPostResponse.created { userId := u, postId := b.id, pinned_at := now } := by
  have hsubEq : has_active_subscription (st.getSubscription u) now = true := by
    rw [hsub]
    simpa [has_active_subscription] using hactive
  have hne : ¬(b.authorId ≠ u) := by simp [hauthor]
  simp only [pin_post, hfind, hsubEq, hne]
  simp [PinnedPostObj.save, hsubEq, hauthor, pinned_post_post_save,
    List.filter_append, filter_user_of_filter_ne]

/-- Witness for C8 at the concrete state `stC8`: user 5 re-pins from post 9
to the published post 10 they authored. -/
theorem pin_post_atomic_replace_witness :
    ((pin_post 0 stC8 5 postB.id).1.pins.filter (fun r => r.userId == 5))
      = [{ userId := 5, postId := postB.id, pinned_at := 0 }] ∧
    (pin_post 0 stC8 5 postB.id).2
      = PinPostResponse.created { userId := 5, postId := postB.id, pinned_at := 0 } :=
  pin_post_atomic_replace 0 stC8 5 postB subUserFive
    { userId := 5, postId := 9, pinned_at := -100 }
    (by decide) (by decide) (by decide) (by decide) (by decide) (by decide)

/-- C9: the `PinnedPost.save` override persists a row exactly when the
pinning user has a subscription record whose `is_active` predicate holds at
save time and the user is the post's author; in every other case it raises
`ValueError` and no row is written. -/
theorem pinned_post_save_guard (pp : PinnedPostObj) (now : Int)
    (subOf : Option Subscription) :
    ((pp.save now subOf = Except.ok pp) ↔
      (has_active_subscription subOf now = true ∧ pp.userId = pp.post.authorId)) ∧
    (has_active_subscription subOf now = false ∨ pp.userId ≠ pp.post.authorId →
      ∃ msg, pp.save now subOf = Except.error msg) := by
  unfold PinnedPostObj.save
  constructor
  · cases hA : has_active_subscription subOf now with
    | false => simp
    | true =>
      by_cases hEq : pp.userId = pp.post.authorId <;> simp [hEq]
  · intro h
    cases hA : has_active_subscription subOf now with
    | false =>
      refine ⟨"User must have an active subscription to pin a post.", ?_⟩
      simp
    | true =>
      cases h with
      | inl hfalse => rw [hA] at hfalse; cases hfalse
      | inr hne =>
        refine ⟨"User can only pin their own posts.", ?_⟩
        simp [hne]

/-- Witness for C9 at a concrete input: with no subscription record at all,
`save` raises. -/
theorem pinned_post_save_guard_witness :
    ∃ msg, ppNoSub.save 0 none = Except.error msg :=
  (pinned_post_save_guard ppNoSub 0 none).2 (Or.inl (by decide))

/-- C10: the delete branch of the `post_save` receiver is unreachable for
completed pin creations — whenever the `PinnedPost.save` override completed,
the user's subscription is active, so the receiver leaves the pin table
untouched. -/
theorem post_save_delete_branch_unreachable (pp : PinnedPostObj) (now : Int)
    (subOf : Option Subscription) (pins : List PinnedPostRow) (row : PinnedPostRow)
    (h : pp.save now subOf = Except.ok pp) :
    pinned_post_post_save now subOf true pins row = pins := by
  cases hA : has_active_subscription subOf now with
  | true => simp [pinned_post_post_save, hA]
  | false =>
    exfalso
    unfold PinnedPostObj.save at h
    rw [hA] at h
    simp at h

/-- Witness for C10 at a concrete input: `ppOk.save` completes, and the
receiver changes nothing. -/
theorem post_save_delete_branch_unreachable_witness :
    pinned_post_post_save 0 (some subUserFive) true
      [{ userId := 5, postId := 10, pinned_at := 0 }]
      { userId := 5, postId := 10, pinned_at := 0 }
      = [{ userId := 5, postId := 10, pinned_at := 0 }] :=
  post_save_delete_branch_unreachable ppOk 0 (some subUserFive)
    [{ userId := 5, postId := 10, pinned_at := 0 }]
    { userId := 5, postId := 10, pinned_at := 0 } (by rfl)

end AppNews
